import Mathlib

/-
Verification of the InformaPDF ingestion pipeline
(src/Code/AIRFLOW_PIPELINE/dags/pipeline1.py) against its natural-language
specification.  The pipeline's observable interaction with object storage is
shallowly embedded: the GCS store is a list of stored object paths, every
storage interaction is recorded as an explicit Event, and each Python
function of the DAG becomes a Lean function of the same name producing the
updated store together with the ordered list of events it issued.
-/

namespace InformaPDF

/-- Predicate on characters used by the Python os.path.splitext scan: an
extension character is anything other than the extension dot and the path
separator.  Scanning a reversed path, the scan stops at the first dot or
slash seen from the right. -/
def extSepPred (c : Char) : Bool := c != '.' && c != '/'

/-- Core of os.path.splitext on a REVERSED character list: drop the
extension (the trailing run of non-dot, non-slash characters together with
the dot that introduces it), but only when the dot belongs to the final
path segment and is preceded there by at least one non-dot character
(Python treats a basename consisting only of leading dots, such as
".pdf", as having no extension).  Otherwise the input is returned whole. -/
def splitextRevDrop (rev : List Char) : List Char :=
  match rev.dropWhile extSepPred with
  | c :: rest =>
      if c == '.' && (rest.takeWhile (fun x => x != '/')).any (fun x => x != '.') then rest
      else rev
  | [] => rev

/-- Root part of os.path.splitext: splitextRoot s models
os.path.splitext(s)[0], as used at pipeline1.py lines 107, 156, 203, 204.
Note that it keeps every directory component of s; only the extension of
the final segment is removed. -/
def splitextRoot (s : String) : String :=
  String.mk ((splitextRevDrop s.data.reverse).reverse)

/-- Storage path of the PyPDF2 (local-library) extract of a document,
from the f-string at pipeline1.py lines 107 and 203. -/
def localTextPath (name : String) : String :=
  "pdf_extract/" ++ splitextRoot name ++ ".txt"

/-- Storage path of the PDF.co (external-service) extract of a document,
from the f-string at pipeline1.py lines 156 and 204. -/
def pdfcoTextPath (name : String) : String :=
  "pdfextract_pdfco/" ++ splitextRoot name ++ ".txt"

/-- One candidate document together with the (fixed) behaviour of the
external world for it during a run: the per-page texts PyPDF2 would
extract (none models a page whose extract_text() returns None), the HTTP
status and body the PDF.co conversion call would return, and whether the
HuggingFace download and the GCS upload of the original bytes succeed. -/
structure Doc where
  name : String
  pages : List (Option String)
  svcStatus : Nat
  svcBody : String
  dlOk : Bool
  ulOk : Bool
deriving DecidableEq, Repr

/-- Observable interactions with the object store and external services,
in the order the pipeline issues them. -/
inductive Event where
  | probe (path : String)
  | download (file : String)
  | uploadPdf (path : String)
  | uploadText (path : String)
  | signedUrl (path : String)
deriving DecidableEq, Repr

/-- Python exceptions that the embedding distinguishes. -/
inductive PyError where
  | nameError (ident : String)
  | ioError
deriving DecidableEq, Repr

/-- Model of pdf_exists_in_gcs (pipeline1.py lines 45-58): when the
storage round trip works (connOk), the blob existence boolean; when the
storage client raises (connectivity or auth failure), the except branch
logs and returns False. -/
def pdf_exists_in_gcs (connOk : Bool) (store : List String) (fileName : String) : Bool :=
  if connOk then store.contains fileName else false

/-- Model of text_exists_in_gcs (pipeline1.py lines 60-73); identical
shape to pdf_exists_in_gcs. -/
def text_exists_in_gcs (connOk : Bool) (store : List String) (textFileName : String) : Bool :=
  if connOk then store.contains textFileName else false

/-- Effect of a successful blob upload on the store, viewed as a set of
stored paths (an upload of an already present path overwrites it). -/
def insertPath (store : List String) (p : String) : List String :=
  if store.contains p then store else p :: store

/-- Model of download_pdf (pipeline1.py lines 75-86): hf_hub_download
either succeeds or raises, and the except branch re-raises. -/
def download_pdf (d : Doc) : Except PyError Unit :=
  if d.dlOk then Except.ok () else Except.error PyError.ioError

/-- Model of upload_to_gcs (pipeline1.py lines 88-101): the blob upload
either succeeds (the path becomes stored) or raises, and the except
branch re-raises. -/
def upload_to_gcs (store : List String) (fileName : String) (ok : Bool) :
    Except PyError (List String) :=
  if ok then Except.ok (insertPath store fileName) else Except.error PyError.ioError

/-- Text accumulated by the page loop of extract_and_upload_contents
(pipeline1.py lines 121-123): extracted_text += (page.extract_text() or
"") + "\n" for each page in order. -/
def extractedText (pages : List (Option String)) : String :=
  pages.foldl (fun acc p => acc ++ (p.getD "" ++ "\n")) ""

/-- Try-block body of extract_and_upload_contents after the existence
guard (pipeline1.py lines 116-135).  The page loop builds the extracted
text, but the upload step at line 133 reads the name storage_client,
which is assigned only inside OTHER functions of the module and is bound
neither at module level nor in any enclosing scope of this function, so
evaluating it raises NameError before any upload request is issued.
(When the function is handed a path that is not a readable local file, as
in the orchestrator's pdf-present branch, the open() at line 117 raises
even earlier; either way the body raises before any store mutation.) -/
def localExtractTry (d : Doc) : Except PyError (List String × List Event) :=
  let _extracted := extractedText d.pages
  Except.error (PyError.nameError "storage_client")

/-- Model of extract_and_upload_contents (pipeline1.py lines 103-138):
probe the local-extract path and return if present (lines 110-112);
otherwise run the try block, whose failure is caught and logged at line
137, leaving the store unchanged. -/
def extract_and_upload_contents (store : List String) (d : Doc) :
    List String × List Event :=
  let path := localTextPath d.name
  if text_exists_in_gcs true store path then (store, [Event.probe path])
  else
    match localExtractTry d with
    | Except.ok r => r
    | Except.error _ => (store, [Event.probe path])

/-- Model of extract_using_pdfco (pipeline1.py lines 152-190): probe the
service-extract path and return if present (lines 159-161); otherwise
generate a signed URL (line 163) and POST to the conversion service; on
status 200 the body text is uploaded only when it is nonempty (line 178,
if extracted_text:), and on any other status or error nothing is
uploaded. -/
def extract_using_pdfco (store : List String) (d : Doc) :
    List String × List Event :=
  let path := pdfcoTextPath d.name
  if text_exists_in_gcs true store path then (store, [Event.probe path])
  else
    if d.svcStatus == 200 then
      if d.svcBody != "" then
        (insertPath store path,
         [Event.probe path, Event.signedUrl d.name, Event.uploadText path])
      else (store, [Event.probe path, Event.signedUrl d.name])
    else (store, [Event.probe path, Event.signedUrl d.name])

/-- Presence probes the orchestrator issues for one document before
branching (pipeline1.py lines 202-208). -/
def presenceProbes (d : Doc) : List Event :=
  [Event.probe d.name, Event.probe (localTextPath d.name),
   Event.probe (pdfcoTextPath d.name)]

/-- Model of the per-document body of process_pdfs (pipeline1.py lines
200-237): probe the three presence facts, then the if/elif/elif/else
chain.  The returned Bool is false exactly when an exception escapes the
document's processing (download or upload failure re-raises; both
extraction helpers catch their own failures). -/
def processDoc (store : List String) (d : Doc) :
    List String × List Event × Bool :=
  let pdfE := pdf_exists_in_gcs true store d.name
  let lPath := localTextPath d.name
  let sPath := pdfcoTextPath d.name
  let tE := text_exists_in_gcs true store lPath
  let pE := text_exists_in_gcs true store sPath
  let probes : List Event := [Event.probe d.name, Event.probe lPath, Event.probe sPath]
  if pdfE && tE && pE then
    (store, probes, true)
  else if pdfE && tE && !pE then
    let r := extract_using_pdfco store d
    (r.1, probes ++ r.2, true)
  else if pdfE && !tE && pE then
    let r := extract_and_upload_contents store d
    (r.1, probes ++ r.2, true)
  else
    match download_pdf d with
    | Except.error _ => (store, probes, false)
    | Except.ok _ =>
      match upload_to_gcs store d.name d.ulOk with
      | Except.error _ => (store, probes ++ [Event.download d.name], false)
      | Except.ok s1 =>
        let rL := extract_and_upload_contents s1 d
        let rS := extract_using_pdfco rL.1 d
        (rS.1,
         probes ++ [Event.download d.name, Event.uploadPdf d.name] ++ rL.2 ++ rS.2,
         true)

/-- Model of the inner document loop of process_pdfs for one folder
(pipeline1.py lines 200-237): documents are processed in order, and the
first exception that escapes a document's processing aborts the rest of
the folder (the try at line 197 wraps the whole loop, and its except at
line 239 only logs). -/
def processFolderDocs : List String → List Doc → List String × List Event
  | store, [] => (store, [])
  | store, d :: ds =>
    let r := processDoc store d
    if r.2.2 then
      let rest := processFolderDocs r.1 ds
      (rest.1, r.2.1 ++ rest.2)
    else (r.1, r.2.1)

/-- Model of process_pdfs (pipeline1.py lines 192-240): each configured
folder is processed under its own try/except, so one folder's failure
never affects the following folders. -/
def process_pdfs (store : List String) (folders : List (List Doc)) :
    List String × List Event :=
  match folders with
  | [] => (store, [])
  | f :: fs =>
    let r := processFolderDocs store f
    let rest := process_pdfs r.1 fs
    (rest.1, r.2 ++ rest.2)

/-- Events that add or replace an object in the store. -/
def isStoreMutation : Event → Bool
  | Event.uploadPdf _ => true
  | Event.uploadText _ => true
  | _ => false

/-- Events that fetch from the source dataset or write the original PDF. -/
def isDownloadOrPdfUpload : Event → Bool
  | Event.download _ => true
  | Event.uploadPdf _ => true
  | _ => false

/-- Concrete document whose PDF.co call returns HTTP 200 with an empty
body; downloads and uploads succeed. -/
def docEmptySvc : Doc :=
  { name := "2023/test/a.pdf", pages := [], svcStatus := 200, svcBody := "",
    dlOk := true, ulOk := true }

/-- Concrete document whose PDF.co call returns HTTP 200 with nonempty
text; downloads and uploads succeed. -/
def docTextSvc : Doc :=
  { name := "2023/test/a.pdf", pages := [some "p"], svcStatus := 200,
    svcBody := "text", dlOk := true, ulOk := true }

/-- Concrete second document, distinct from docTextSvc. -/
def docB : Doc :=
  { name := "2023/test/b.pdf", pages := [], svcStatus := 200, svcBody := "text",
    dlOk := true, ulOk := true }

/-- Concrete document whose HuggingFace download raises. -/
def docFailDl : Doc :=
  { name := "2023/test/x.pdf", pages := [], svcStatus := 200, svcBody := "t",
    dlOk := false, ulOk := true }

/-- Concrete document whose PDF.co call fails with HTTP 500. -/
def docHttp500 : Doc :=
  { name := "2023/test/b.pdf", pages := [], svcStatus := 500, svcBody := "",
    dlOk := true, ulOk := true }

/-! Helper lemmas (not tied to a single claim). -/

/-- The local-library extraction helper never changes the store and its
only storage interaction is the existence probe of its own output path:
when the path is present it returns early, and when it is absent the try
block raises (NameError on storage_client) before any upload, and the
except branch swallows the error. -/
theorem extract_local_noop (store : List String) (d : Doc) :
    extract_and_upload_contents store d =
      (store, [Event.probe (localTextPath d.name)]) := by
  cases hE : text_exists_in_gcs true store (localTextPath d.name) <;>
    simp [extract_and_upload_contents, localExtractTry, hE]

/-- String.join of the empty list is the empty string. -/
theorem join_nil : String.join [] = "" := rfl

/-- String.join distributes over cons. -/
theorem join_cons (x : String) (xs : List String) :
    String.join (x :: xs) = x ++ String.join xs := by
  apply String.ext
  simp [String.join_eq, String.data_append]

/-- Accumulator characterisation of the tail-recursive worker of
String.intercalate. -/
theorem intercalate_go_eq (sep acc : String) (l : List String) :
    String.intercalate.go acc sep l = acc ++ String.join (l.map (fun t => sep ++ t)) := by
  induction l generalizing acc with
  | nil => simp [String.intercalate.go, String.join]
  | cons b bs ih =>
    rw [show String.intercalate.go acc sep (b :: bs) =
          String.intercalate.go (acc ++ sep ++ b) sep bs from rfl, ih]
    simp [join_cons, String.append_assoc]

/-- Shifting the newline from separator position to terminator position:
prepending a newline to every later segment and to one final empty
segment is the same as appending a newline to every earlier segment. -/
theorem newline_shift (as : List String) (a : String) :
    a ++ String.join ((as ++ [""]).map (fun t => "\n" ++ t)) =
      a ++ "\n" ++ String.join (as.map (fun t => t ++ "\n")) := by
  induction as generalizing a with
  | nil =>
    show a ++ String.join ["\n" ++ ""] = a ++ "\n" ++ String.join []
    simp [join_cons, join_nil, String.append_empty]
  | cons b bs ih =>
    show a ++ String.join (("\n" ++ b) :: ((bs ++ [""]).map (fun t => "\n" ++ t))) = _
    rw [join_cons, ← String.append_assoc, ← String.append_assoc a "\n" b,
        ih (a ++ "\n" ++ b), List.map_cons, join_cons]
    simp [String.append_assoc]

/-- Newline-separated join of a list of segments with one trailing empty
segment equals the concatenation of the segments each terminated by a
newline. -/
theorem intercalate_term (l : List String) :
    String.intercalate "\n" (l ++ [""]) = String.join (l.map (fun t => t ++ "\n")) := by
  cases l with
  | nil => rfl
  | cons a as =>
    rw [show String.intercalate "\n" ((a :: as) ++ [""]) =
          String.intercalate.go a "\n" (as ++ [""]) from rfl,
        intercalate_go_eq, newline_shift, List.map_cons, join_cons]

/-- Splitext drops exactly an appended ".pdf" extension, keeping every
directory component, whenever the final path segment of the stem contains
at least one character that is not a dot. -/
theorem splitextRoot_pdf (stem : String)
    (h : (stem.data.reverse.takeWhile (fun x => x != '/')).any (fun x => x != '.') = true) :
    splitextRoot (stem ++ ".pdf") = stem := by
  have hdata : (stem ++ ".pdf").data = stem.data ++ ('.' :: 'p' :: 'd' :: 'f' :: []) := rfl
  unfold splitextRoot
  rw [hdata, List.reverse_append]
  have hred : splitextRevDrop
        (('.' :: 'p' :: 'd' :: 'f' :: ([] : List Char)).reverse ++ stem.data.reverse) =
      if (stem.data.reverse.takeWhile (fun x => x != '/')).any (fun x => x != '.') then
        stem.data.reverse
      else ('.' :: 'p' :: 'd' :: 'f' :: ([] : List Char)).reverse ++ stem.data.reverse := rfl
  rw [hred, h, if_pos rfl, List.reverse_reverse]

/-- Every event issued by the service-extraction helper is a probe, a
signed-URL generation, or a text upload; never a dataset download or an
original-PDF upload. -/
theorem pdfco_events_no_pdf_traffic (store : List String) (d : Doc) :
    ∀ e ∈ (extract_using_pdfco store d).2, isDownloadOrPdfUpload e = false := by
  intro e he
  cases hE : text_exists_in_gcs true store (pdfcoTextPath d.name) with
  | true =>
    simp [extract_using_pdfco, hE] at he
    subst he
    rfl
  | false =>
    cases hS : (d.svcStatus == 200) with
    | true =>
      cases hB : (d.svcBody != "") with
      | true =>
        simp [extract_using_pdfco, hE, hS, hB] at he
        rcases he with h | h | h <;> subst h <;> rfl
      | false =>
        simp [extract_using_pdfco, hE, hS, hB] at he
        rcases he with h | h <;> subst h <;> rfl
    | false =>
      simp [extract_using_pdfco, hE, hS] at he
      rcases he with h | h <;> subst h <;> rfl

/-! Claim theorems. -/

/-- C1: the orchestrator is NOT idempotent.  Divergence witness: one
folder with one document whose service extraction returns HTTP 200 with
an empty body.  After a first run from the empty store the PDF is stored
but neither extract is (the local upload always fails on the unbound
storage_client, and the empty service body is not uploaded), so the
second run matches no elif row, falls into the download else-branch, and
issues a second store-mutating upload of the original PDF. -/
theorem claim1_second_run_reuploads_pdf :
    Event.uploadPdf "2023/test/a.pdf" ∈
      (process_pdfs (process_pdfs [] [[docEmptySvc]]).1 [[docEmptySvc]]).2 := by
  decide

/-- C2: a document in presence state (pdf present, local extract absent,
service extract absent) does NOT merely run both extractions: the
if/elif chain of process_pdfs has no (T,F,F) row, so the document falls
into the else branch, which re-downloads the PDF from the source dataset
and re-uploads it to the store even though its bytes are already
present. -/
theorem claim2_present_pdf_missing_extracts_redownloads :
    Event.download "2023/test/a.pdf" ∈
      (processDoc ["2023/test/a.pdf"] docTextSvc).2.1 ∧
    Event.uploadPdf "2023/test/a.pdf" ∈
      (processDoc ["2023/test/a.pdf"] docTextSvc).2.1 := by
  decide

/-- C3 counterexample: the identifier 2023/test/foo.pdf does NOT map to
pdf_extract/foo.txt and pdfextract_pdfco/foo.txt; os.path.splitext keeps
the directory components, so the extract paths retain them. -/
theorem claim3_counterexample :
    localTextPath "2023/test/foo.pdf" ≠ "pdf_extract/foo.txt" ∧
    pdfcoTextPath "2023/test/foo.pdf" ≠ "pdfextract_pdfco/foo.txt" ∧
    localTextPath "2023/test/foo.pdf" = "pdf_extract/2023/test/foo.txt" ∧
    pdfcoTextPath "2023/test/foo.pdf" = "pdfextract_pdfco/2023/test/foo.txt" := by
  refine ⟨by decide, by decide, rfl, rfl⟩

/-- C3 as amended: dropping only the ".pdf" extension, an identifier
stem.pdf maps to local-extract path pdf_extract/stem.txt and
service-extract path pdfextract_pdfco/stem.txt with every directory
component of the identifier kept, for any stem whose final path segment
has at least one non-dot character. -/
theorem claim3_extract_paths_keep_directories (stem : String)
    (h : (stem.data.reverse.takeWhile (fun x => x != '/')).any (fun x => x != '.') = true) :
    localTextPath (stem ++ ".pdf") = "pdf_extract/" ++ stem ++ ".txt" ∧
    pdfcoTextPath (stem ++ ".pdf") = "pdfextract_pdfco/" ++ stem ++ ".txt" := by
  unfold localTextPath pdfcoTextPath
  rw [splitextRoot_pdf stem h]
  exact ⟨rfl, rfl⟩

/-- C3 witness: the amended path derivation evaluated at the spec's own
example identifier. -/
theorem claim3_witness :
    localTextPath ("2023/test/foo" ++ ".pdf") = "pdf_extract/" ++ "2023/test/foo" ++ ".txt" ∧
    pdfcoTextPath ("2023/test/foo" ++ ".pdf") =
      "pdfextract_pdfco/" ++ "2023/test/foo" ++ ".txt" :=
  claim3_extract_paths_keep_directories "2023/test/foo" (by decide)

/-- C4: when the local extract is not already stored, the local-library
backend never writes anything: its upload step reads the unbound name
storage_client and so raises NameError on every such invocation, the
error is caught inside the function, the store is unchanged, and the only
storage interaction is the existence probe of the output path. -/
theorem claim4_local_extract_never_writes (store : List String) (d : Doc)
    (_h : store.contains (localTextPath d.name) = false) :
    extract_and_upload_contents store d = (store, [Event.probe (localTextPath d.name)]) ∧
    localExtractTry d = Except.error (PyError.nameError "storage_client") :=
  ⟨extract_local_noop store d, rfl⟩

/-- C4 witness: the no-write behaviour at a concrete document with a
nonempty page text and an empty store. -/
theorem claim4_witness :
    ([] : List String).contains (localTextPath "2023/test/a.pdf") = false ∧
    (extract_and_upload_contents [] docTextSvc =
        ([], [Event.probe (localTextPath "2023/test/a.pdf")]) ∧
      localExtractTry docTextSvc = Except.error (PyError.nameError "storage_client")) :=
  ⟨by decide, claim4_local_extract_never_writes [] docTextSvc (by decide)⟩

/-- C5 counterexample: a download failure for the first document of a
folder aborts the rest of the folder — the second document is never
probed, even though it is probed when processed alone. -/
theorem claim5_counterexample :
    Event.probe "2023/test/b.pdf" ∉ (processFolderDocs [] [docFailDl, docB]).2 ∧
    Event.probe "2023/test/b.pdf" ∈ (processFolderDocs [] [docB]).2 := by
  decide

/-- C5 as amended: the failure boundary is the folder, not the document.
A download failure for a document whose PDF is absent aborts the
remaining documents of the current folder (the run continues with later
folders, whose processing is unaffected), while extraction failures are
caught inside the backends, so a document whose download and upload
succeed never aborts the loop. -/
theorem claim5_folder_level_isolation (store : List String) (d : Doc) (ds : List Doc)
    (fs : List (List Doc)) (s2 : List String) (d2 : Doc)
    (hdl : d.dlOk = false) (hpdf : store.contains d.name = false)
    (hdl2 : d2.dlOk = true) (hul2 : d2.ulOk = true) :
    processFolderDocs store (d :: ds) = (store, presenceProbes d) ∧
    process_pdfs store ((d :: ds) :: fs) =
      ((process_pdfs store fs).1, presenceProbes d ++ (process_pdfs store fs).2) ∧
    (processDoc s2 d2).2.2 = true := by
  have hmem : d.name ∉ store := by simpa using hpdf
  have hd : processDoc store d = (store, presenceProbes d, false) := by
    simp [processDoc, pdf_exists_in_gcs, download_pdf, hmem, hdl, presenceProbes]
  refine ⟨?_, ?_, ?_⟩
  · simp [processFolderDocs, hd]
  · simp [process_pdfs, processFolderDocs, hd]
  · simp only [processDoc]
    split_ifs <;> simp [download_pdf, upload_to_gcs, hdl2, hul2]

/-- C5 witness: the folder-level failure boundary at concrete inputs. -/
theorem claim5_witness :
    processFolderDocs [] [docFailDl] = ([], presenceProbes docFailDl) ∧
    process_pdfs [] ([docFailDl] :: []) =
      ((process_pdfs [] []).1, presenceProbes docFailDl ++ (process_pdfs [] []).2) ∧
    (processDoc [] docHttp500).2.2 = true :=
  claim5_folder_level_isolation [] docFailDl [] [] [] docHttp500
    (by decide) (by decide) (by decide) (by decide)

/-- C6 counterexample: a service extraction whose HTTP call returns
status 200 with an empty body stores NOTHING — the store is unchanged
and no text upload is issued, contradicting the claim that the empty
result is stored and considered complete. -/
theorem claim6_counterexample :
    (extract_using_pdfco [] docEmptySvc).1 = [] ∧
    Event.uploadText (pdfcoTextPath "2023/test/a.pdf") ∉
      (extract_using_pdfco [] docEmptySvc).2 := by
  decide

/-- C6 as amended: on HTTP 200 the returned text is stored at the
service-extract path only when it is nonempty; when the returned text is
empty nothing is uploaded (a warning is logged) and the path stays
absent, so the empty result is retried on a later pass rather than
recorded as complete. -/
theorem claim6_empty_body_not_stored (store store2 : List String) (d d2 : Doc)
    (hd : store.contains (pdfcoTextPath d.name) = false)
    (hd2 : store2.contains (pdfcoTextPath d2.name) = false)
    (hds : d.svcStatus = 200) (hdb : d.svcBody = "")
    (hd2s : d2.svcStatus = 200) (hd2b : d2.svcBody ≠ "") :
    extract_using_pdfco store d =
      (store, [Event.probe (pdfcoTextPath d.name), Event.signedUrl d.name]) ∧
    extract_using_pdfco store2 d2 =
      (insertPath store2 (pdfcoTextPath d2.name),
       [Event.probe (pdfcoTextPath d2.name), Event.signedUrl d2.name,
        Event.uploadText (pdfcoTextPath d2.name)]) := by
  have hm : pdfcoTextPath d.name ∉ store := by simpa using hd
  have hm2 : pdfcoTextPath d2.name ∉ store2 := by simpa using hd2
  constructor
  · simp [extract_using_pdfco, text_exists_in_gcs, hm, hds, hdb]
  · simp [extract_using_pdfco, text_exists_in_gcs, hm2, hd2s, hd2b]

/-- C6 witness: the empty-body and nonempty-body service responses
evaluated at concrete documents over the empty store. -/
theorem claim6_witness :
    extract_using_pdfco [] docEmptySvc =
      ([], [Event.probe (pdfcoTextPath "2023/test/a.pdf"),
            Event.signedUrl "2023/test/a.pdf"]) ∧
    extract_using_pdfco [] docB =
      (insertPath [] (pdfcoTextPath "2023/test/b.pdf"),
       [Event.probe (pdfcoTextPath "2023/test/b.pdf"),
        Event.signedUrl "2023/test/b.pdf",
        Event.uploadText (pdfcoTextPath "2023/test/b.pdf")]) :=
  claim6_empty_body_not_stored [] [] docEmptySvc docB
    (by decide) (by decide) (by decide) (by decide) (by decide) (by decide)

/-- C7 counterexample: the service backend DOES perform an existence
check on its own output path: invoked with the output already stored and
a service response that would otherwise be uploaded, it issues exactly
the probe of its own path and writes nothing. -/
theorem claim7_counterexample :
    extract_using_pdfco ["pdfextract_pdfco/2023/test/a.txt"] docTextSvc =
      (["pdfextract_pdfco/2023/test/a.txt"],
       [Event.probe "pdfextract_pdfco/2023/test/a.txt"]) := by
  decide

/-- C7 as amended: both extraction backends check the existence of their
own output path before doing any work and return without writing when it
is already present; the should-I-run check is thus performed both by the
orchestrator and again inside each backend. -/
theorem claim7_backends_check_existence (store store2 : List String) (d d2 : Doc)
    (h : store.contains (localTextPath d.name) = true)
    (h2 : store2.contains (pdfcoTextPath d2.name) = true) :
    extract_and_upload_contents store d =
      (store, [Event.probe (localTextPath d.name)]) ∧
    extract_using_pdfco store2 d2 =
      (store2, [Event.probe (pdfcoTextPath d2.name)]) := by
  have hm2 : pdfcoTextPath d2.name ∈ store2 := by simpa using h2
  constructor
  · exact extract_local_noop store d
  · simp [extract_using_pdfco, text_exists_in_gcs, hm2]

/-- C7 witness: both backends skip at concrete stores that already hold
their output paths. -/
theorem claim7_witness :
    extract_and_upload_contents ["pdf_extract/2023/test/a.txt"] docTextSvc =
      (["pdf_extract/2023/test/a.txt"],
       [Event.probe (localTextPath "2023/test/a.pdf")]) ∧
    extract_using_pdfco ["pdfextract_pdfco/2023/test/a.txt"] docTextSvc =
      (["pdfextract_pdfco/2023/test/a.txt"],
       [Event.probe (pdfcoTextPath "2023/test/a.pdf")]) :=
  claim7_backends_check_existence ["pdf_extract/2023/test/a.txt"]
    ["pdfextract_pdfco/2023/test/a.txt"] docTextSvc docTextSvc
    (by decide) (by decide)

/-- C8: for a PDF of N pages the local extraction text is the per-page
texts in page order, each contributing its text followed by the newline
separator (so a page yielding no text contributes only the separator and
no page is dropped): the result is the concatenation of the N
newline-terminated segments, equivalently the newline-join of the N
segments with one final empty segment, and the segment list has exactly
length N. -/
theorem claim8_local_extraction_segments (pages : List (Option String)) :
    extractedText pages =
      String.join ((pages.map (fun p => p.getD "")).map (fun t => t ++ "\n")) ∧
    extractedText pages =
      String.intercalate "\n" ((pages.map (fun p => p.getD "")) ++ [""]) ∧
    (pages.map (fun p => p.getD "")).length = pages.length := by
  refine ⟨?_, ?_, by simp⟩
  · simp [extractedText, String.join, List.foldl_map]
  · rw [intercalate_term]
    simp [extractedText, String.join, List.foldl_map]

/-- C9: for a document whose PDF is absent from the store, the
orchestrator's event trace always places the source download before the
store upload of the original, and places that upload before every
extraction event; when download or upload fails, no later step of the
sequence is attempted. -/
theorem claim9_download_upload_extract_order (store : List String) (d : Doc)
    (hpdf : store.contains d.name = false) :
    (d.dlOk = false → (processDoc store d).2.1 = presenceProbes d) ∧
    (d.dlOk = true → d.ulOk = false →
      (processDoc store d).2.1 = presenceProbes d ++ [Event.download d.name]) ∧
    (d.dlOk = true → d.ulOk = true → ∃ evE,
      (processDoc store d).2.1 =
        presenceProbes d ++ [Event.download d.name, Event.uploadPdf d.name] ++ evE ∧
      ∀ e ∈ evE, isDownloadOrPdfUpload e = false) := by
  have hmem : d.name ∉ store := by simpa using hpdf
  refine ⟨?_, ?_, ?_⟩
  · intro hdl
    simp [processDoc, pdf_exists_in_gcs, hmem, download_pdf, hdl, presenceProbes]
  · intro hdl hul
    simp [processDoc, pdf_exists_in_gcs, hmem, download_pdf, hdl, upload_to_gcs, hul,
          presenceProbes]
  · intro hdl hul
    refine ⟨Event.probe (localTextPath d.name) ::
      (extract_using_pdfco (insertPath store d.name) d).2, ?_, ?_⟩
    · simp [processDoc, pdf_exists_in_gcs, hmem, download_pdf, hdl, upload_to_gcs, hul,
            extract_local_noop, presenceProbes]
    · intro e he
      rcases List.mem_cons.mp he with h | h
      · subst h
        rfl
      · exact pdfco_events_no_pdf_traffic _ _ e h

/-- C9 witness: the ordered trace at a concrete document over the empty
store. -/
theorem claim9_witness :
    (docTextSvc.dlOk = false → (processDoc [] docTextSvc).2.1 = presenceProbes docTextSvc) ∧
    (docTextSvc.dlOk = true → docTextSvc.ulOk = false →
      (processDoc [] docTextSvc).2.1 =
        presenceProbes docTextSvc ++ [Event.download docTextSvc.name]) ∧
    (docTextSvc.dlOk = true → docTextSvc.ulOk = true → ∃ evE,
      (processDoc [] docTextSvc).2.1 =
        presenceProbes docTextSvc ++
          [Event.download docTextSvc.name, Event.uploadPdf docTextSvc.name] ++ evE ∧
      ∀ e ∈ evE, isDownloadOrPdfUpload e = false) :=
  claim9_download_upload_extract_order [] docTextSvc (by decide)

/-- C10 counterexample: a connectivity failure while an object IS stored
at the queried path is reported as the boolean false, exactly like a
true not-found answer over an empty store — no distinct error kind is
surfaced. -/
theorem claim10_counterexample :
    pdf_exists_in_gcs false ["2023/test/a.pdf"] "2023/test/a.pdf" = false ∧
    pdf_exists_in_gcs true [] "2023/test/a.pdf" = false ∧
    text_exists_in_gcs false ["pdf_extract/a.txt"] "pdf_extract/a.txt" = false := by
  decide

/-- C10 as amended: the existence checks return true iff an object is
stored at exactly the queried path when the storage round trip succeeds,
and never throw; but a connectivity or auth failure is caught inside the
function and reported as the boolean false, indistinguishable from
not-found, rather than surfaced as a distinct error kind. -/
theorem claim10_exists_check_boolean_on_failure (store : List String) (p : String) :
    pdf_exists_in_gcs true store p = store.contains p ∧
    pdf_exists_in_gcs false store p = false ∧
    text_exists_in_gcs true store p = store.contains p ∧
    text_exists_in_gcs false store p = false :=
  ⟨rfl, rfl, rfl, rfl⟩

end InformaPDF
